import Mathlib

/-!
Verification development for the youtube-downloader repository.

The definitions below are a shallow embedding of `src/core/queue.py`,
`src/core/downloader.py` and `src/core/utils.py`.  Python dictionaries that
the code reads only through string-typed fields are modelled as structures of
`Option String` / `Option Nat` fields (where `none` stands for a missing key
or a non-string value, and the empty string is kept distinct because Python
truthiness treats it as falsy).  Floats that only ever hold exact byte counts
and percentages are modelled as rationals.  Thread-pool job ids (uuid4
strings in the code) are modelled as a deterministic supply of naturals.
-/

/-- Python truthiness for an optional string: `None` and `""` are falsy. -/
def pyTruthyStr (a : Option String) : Bool :=
  match a with
  | some s => !s.isEmpty
  | none => false

/-- Python `a or b` on optional strings (returns `b` whenever `a` is falsy). -/
def pyOrStr (a b : Option String) : Option String :=
  if pyTruthyStr a then a else b

/-- Python `a or ""` on an optional string. -/
def pyStrD (a : Option String) : String :=
  match a with
  | some s => s
  | none => ""

/-- Python `a or b` on optional naturals, where `None` and `0` are falsy. -/
def pyOrNat (a b : Option Nat) : Option Nat :=
  match a with
  | some n => if n = 0 then b else a
  | none => b

/-- Lower-case one character, mirroring `str.lower` on ASCII letters. -/
def lowerChar (c : Char) : Char :=
  if c.toNat ≥ 65 ∧ c.toNat ≤ 90 then Char.ofNat (c.toNat + 32) else c

/-- Check that `pat` is an initial segment of `hay` (character lists). -/
def listStartsWith : List Char → List Char → Bool
  | _, [] => true
  | [], _ :: _ => false
  | a :: as, b :: bs => a = b && listStartsWith as bs

/-- Python `pat in hay` substring test on character lists. -/
def hasSubList (pat : List Char) : List Char → Bool
  | [] => pat.isEmpty
  | c :: t => listStartsWith (c :: t) pat || hasSubList pat t

/-- Python `hay.startswith(pat)` on strings. -/
def strStartsWith (hay pat : String) : Bool :=
  listStartsWith hay.toList pat.toList

/-- Python `pat in hay` on strings. -/
def strHasSub (hay pat : String) : Bool :=
  hasSubList pat.toList hay.toList

/-- Decidable equality for `Except`, so concrete runs can be checked by
`decide`. -/
instance {α β : Type} [DecidableEq α] [DecidableEq β] : DecidableEq (Except α β) := fun x y =>
  match x, y with
  | .ok a, .ok b =>
    if h : a = b then isTrue (by rw [h]) else isFalse (fun hh => h (Except.ok.inj hh))
  | .error a, .error b =>
    if h : a = b then isTrue (by rw [h]) else isFalse (fun hh => h (Except.error.inj hh))
  | .ok _, .error _ => isFalse (fun hh => Except.noConfusion hh)
  | .error _, .ok _ => isFalse (fun hh => Except.noConfusion hh)

/-- Embedding of `utils.is_likely_playlist_url` (src/core/utils.py lines 61-65). -/
def isLikelyPlaylistUrl (url : String) : Bool :=
  if url.isEmpty then false
  else
    let u := String.mk (url.toList.map lowerChar)
    strHasSub u "list=" || strHasSub u "/playlist" || strHasSub u "music.youtube.com/playlist"

/-- One raw playlist entry dictionary, restricted to the keys the queue code
reads.  `none` models a missing key or a value of the wrong runtime type.
`thumbnails` holds, per element of the Python list, the `url` value when the
element is a dict carrying a string url, else `none`. -/
structure PyEntry where
  webpage_url : Option String := none
  url : Option String := none
  id : Option String := none
  title : Option String := none
  thumbnail : Option String := none
  thumbnails : List (Option String) := []
deriving Repr, DecidableEq

/-- Metadata dictionary returned by the flat extraction in
`queue.resolve_entries`, restricted to the keys that function reads.  An
element `none` of `entries` models a `None`/falsy entry dict. -/
structure PyInfo where
  type_ : Option String := none
  entries : List (Option PyEntry) := []
  webpage_url : Option String := none
  original_url : Option String := none
  title : Option String := none
  thumbnail : Option String := none
  thumbnails : List (Option String) := []
deriving Repr, DecidableEq

/-- Embedding of `queue.QueueEntry` (src/core/queue.py lines 22-30). -/
structure QueueEntry where
  url : String
  title : String := ""
  index : Option Nat := none
  total : Option Nat := none
  thumbnail_url : Option String := none
deriving Repr, DecidableEq

/-- Scan of the `thumbnails` list inside `queue._extract_thumbnail`
(src/core/queue.py lines 38-44): first string url beginning with http. -/
def thumbsScan : List (Option String) → Option String
  | [] => none
  | some u :: rest => if strStartsWith u "http" then some u else thumbsScan rest
  | none :: rest => thumbsScan rest

/-- Embedding of `queue._extract_thumbnail` (src/core/queue.py lines 33-44)
on the pair of fields it reads. -/
def extractThumbnail (thumb : Option String) (thumbs : List (Option String)) : Option String :=
  match thumb with
  | some s => if strStartsWith s "http" then some s else thumbsScan thumbs
  | none => thumbsScan thumbs

/-- Embedding of `queue._normalise_entry_url` (src/core/queue.py lines 47-55). -/
def normaliseEntryUrl (e : PyEntry) : Option String :=
  let idFall : Option PyEntry → Option String := fun o =>
    match o with
    | some e' =>
      match e'.id with
      | some v => some ("https://www.youtube.com/watch?v=" ++ v)
      | none => none
    | none => none
  match pyOrStr e.webpage_url e.url with
  | some s => if strStartsWith s "http" then some s else idFall (some e)
  | none => idFall (some e)

/-- Loop body of the playlist branch of `queue.resolve_entries`
(src/core/queue.py lines 87-93): 1-based enumeration of the non-null
entries, skipping entries with no resolvable address. -/
def playlistLoop (total : Nat) : Nat → List PyEntry → List QueueEntry
  | _, [] => []
  | idx, e :: rest =>
    match normaliseEntryUrl e with
    | some u =>
      { url := u, title := pyStrD e.title, index := some idx, total := some total,
        thumbnail_url := extractThumbnail e.thumbnail e.thumbnails } :: playlistLoop total (idx + 1) rest
    | none => playlistLoop total (idx + 1) rest

/-- Post-fetch part of `queue.resolve_entries` (src/core/queue.py lines
77-98), given the already-extracted info dictionary. -/
def resolveFromInfo (info : PyInfo) (url : String) : List QueueEntry :=
  if info.type_ = some "playlist" ∨ info.type_ = some "multi_video" then
    let filtered := info.entries.filterMap id
    if filtered.isEmpty then []
    else playlistLoop filtered.length 1 filtered
  else
    [{ url := pyStrD (pyOrStr (pyOrStr info.webpage_url info.original_url) (some url)),
       title := pyStrD info.title, index := some 1, total := some 1,
       thumbnail_url := extractThumbnail info.thumbnail info.thumbnails }]

/-- Embedding of `queue.resolve_entries` (src/core/queue.py lines 58-110).
The metadata fetch is the one external call; its outcome is the `fetch`
argument (`Except.error` models any exception from `extract_info`, which the
code catches, logs, and converts to an empty list).  Log output is dropped. -/
def resolveEntries (fetch : Except String PyInfo) (url : String) : List QueueEntry :=
  match fetch with
  | .error _ => []
  | .ok info => resolveFromInfo info url

/-- Embedding of the `downloader.DownloadProgress` event record as it is
constructed and consumed across the repository: src/core/queue.py lines
203-214 and 264-282 additionally set `job_id` and `thumbnail_url`, and
src/ui/app_gui.py reads both.  The dataclass declaration itself
(src/core/downloader.py lines 15-27) omits those two fields; that
declaration is recorded separately in `downloadProgressDataclassFields`
and the mismatch is settled under claim C1. -/
structure DownloadProgress where
  status : String := ""
  percent : ℚ := 0
  downloaded : Nat := 0
  total : Nat := 0
  speed : ℚ := 0
  eta : Option Nat := none
  message : String := ""
  title : String := ""
  item_index : Option Nat := none
  item_count : Option Nat := none
  job_id : Option Nat := none
  thumbnail_url : Option String := none
deriving Repr, DecidableEq

/-- Field names declared on the `DownloadProgress` dataclass in
src/core/downloader.py lines 15-27, in source order. -/
def downloadProgressDataclassFields : List String :=
  ["status", "percent", "downloaded", "total", "speed", "eta", "message",
   "title", "item_index", "item_count"]

/-- Keyword arguments that `DownloadManager._emit_placeholder`
(src/core/queue.py lines 203-213) passes to the `DownloadProgress`
constructor. -/
def emitPlaceholderKwargs : List String :=
  ["status", "message", "percent", "title", "item_index", "item_count",
   "job_id", "thumbnail_url"]

/-- Parameter names accepted by `YTAudioDownloader.__init__`
(src/core/downloader.py line 47), excluding `self`. -/
def ytAudioDownloaderInitParams : List String :=
  ["log_cb", "progress_cb", "stop_event"]

/-- Argument names bound by the `YTAudioDownloader(...)` call in
`DownloadManager._run_worker` (src/core/queue.py line 241): three
positional arguments plus the keyword argument `job_id`. -/
def runWorkerCtorArgs : List String :=
  ["log_cb", "progress_cb", "stop_event", "job_id"]

/-- Python call semantics for keyword binding: a call is accepted exactly
when every supplied argument name is a declared parameter or field; an
unknown keyword raises `TypeError`. -/
def pyCallOk (accepted given : List String) : Bool :=
  given.all fun k => accepted.contains k

/-- Embedding of the `DownloadManager` batch state (src/core/queue.py lines
116-130).  `stop_events` maps each tracked job id to whether its
`threading.Event` is set; `futures` is the key set of the pending-future
dictionary; job ids (uuid4 strings in the code) are drawn from a
deterministic supply of naturals. -/
structure MState where
  max_workers : Nat := 3
  stop_events : List (Nat × Bool) := []
  futures : List Nat := []
  active_total : Option Nat := none
  cancel_requested : Bool := false
  had_errors : Bool := false
deriving Repr, DecidableEq

/-- Embedding of `DownloadManager.has_active_jobs` (src/core/queue.py lines
137-139): `bool(self._futures)`. -/
def hasActiveJobs (s : MState) : Bool :=
  !s.futures.isEmpty

/-- Clamp applied inside `DownloadManager.set_max_workers`
(src/core/queue.py line 148): `max(1, min(desired, 8))`. -/
def clampPool (n : Int) : Nat :=
  (max 1 (min n 8)).toNat

/-- Embedding of `DownloadManager.set_max_workers` (src/core/queue.py lines
142-160).  The argument is `none` when `int(max_workers)` raises
`TypeError`/`ValueError` (the code then returns `False`).  The returned pair
is (result, state after the call); replacing the executor itself has no
observable field beyond `max_workers`. -/
def setMaxWorkers (s : MState) (n : Option Int) : Bool × MState :=
  match n with
  | none => (false, s)
  | some v =>
    let desired := clampPool v
    if desired = s.max_workers then (true, s)
    else if s.futures.isEmpty then (true, { s with max_workers := desired })
    else (false, s)

/-- Embedding of `DownloadManager._emit_placeholder` (src/core/queue.py
lines 203-214): the queued event constructed for one entry (the title falls
back to the f-string `Item {index}` when the entry title is falsy). -/
def emitPlaceholder (jid : Nat) (entry : QueueEntry) : DownloadProgress :=
  { status := "queued", message := "queued", percent := 0,
    title := if entry.title.isEmpty then
        "Item " ++ (match entry.index with | some n => toString n | none => "None")
      else entry.title,
    item_index := entry.index, item_count := entry.total,
    job_id := some jid, thumbnail_url := entry.thumbnail_url }

/-- Entry list used by `DownloadManager._start_jobs` (src/core/queue.py
lines 171-173): the resolver result, or a single raw-URL fallback entry when
resolution produced nothing. -/
def startJobsEntries (fetch : Except String PyInfo) (url : String) : List QueueEntry :=
  let e := resolveEntries fetch url
  if e.isEmpty then [{ url := url, title := "", index := some 1, total := some 1 }] else e

/-- Computation `entries[0].total or len(entries)` (src/core/queue.py line
175), with Python treating `None` and `0` as falsy. -/
def batchTotalItems (entries : List QueueEntry) : Nat :=
  match entries.head? with
  | some e =>
    match e.total with
    | some (n + 1) => n + 1
    | _ => entries.length
  | none => entries.length

/-- Placeholder events emitted by the submission loop of `_start_jobs`
(src/core/queue.py lines 180-200), one per entry in order, with the job-id
supply starting at `i`. -/
def placeholdersFrom : Nat → List QueueEntry → List DownloadProgress
  | _, [] => []
  | i, e :: rest => emitPlaceholder i e :: placeholdersFrom (i + 1) rest

/-- Embedding of `DownloadManager._start_jobs` (src/core/queue.py lines
170-200): resolve, fall back to the raw URL, record the batch total, reset
the cancel/error flags, then register one stop event and one future per
entry while emitting one queued placeholder per entry.  Returns the new
state and the emitted events in order. -/
def startJobs (fetch : Except String PyInfo) (url : String) (s : MState) :
    MState × List DownloadProgress :=
  let entries := startJobsEntries fetch url
  let n := entries.length
  ({ s with
      active_total := some (batchTotalItems entries),
      cancel_requested := false,
      had_errors := false,
      stop_events := s.stop_events ++ (List.range n).map fun i => (i, false),
      futures := s.futures ++ List.range n },
   placeholdersFrom 0 entries)

/-- Embedding of `DownloadManager._emit_terminal_event` (src/core/queue.py
lines 264-282): the batch-level event computed from the cancel flag, the
error flag and the recorded batch total. -/
def emitTerminalEvent (s : MState) : DownloadProgress :=
  if s.cancel_requested then
    { status := "stopped", message := "cancelled", job_id := none }
  else if s.had_errors then
    { status := "error", message := "one_or_more_failed",
      item_count := s.active_total, job_id := none }
  else
    { status := "finished", message := "all_done", percent := 100,
      item_count := s.active_total, job_id := none }

/-- Embedding of `DownloadManager._on_future_done` (src/core/queue.py lines
249-261): drop the completed job from both maps, and when the active set
became empty emit the terminal batch event.  Log output is dropped. -/
def onFutureDone (s : MState) (jid : Nat) : MState × List DownloadProgress :=
  let s' := { s with
      futures := s.futures.filter fun x => x ≠ jid,
      stop_events := s.stop_events.filter fun p => p.1 ≠ jid }
  if s'.futures.isEmpty then (s', [emitTerminalEvent s']) else (s', [])

/-- Sequential run of the completion callbacks for the given job ids (the
lock in `_on_future_done` serialises the map updates), collecting every
emitted batch-level event in order. -/
def runCompletions (s : MState) : List Nat → List DownloadProgress
  | [] => []
  | j :: rest =>
    let r := onFutureDone s j
    r.2 ++ runCompletions r.1 rest

/-- Embedding of `DownloadManager.stop_all` (src/core/queue.py lines
285-290): set the cancel flag and set every tracked stop event.  No
progress event is emitted by this operation. -/
def stopAll (s : MState) : MState :=
  { s with
      cancel_requested := true,
      stop_events := s.stop_events.map fun p => (p.1, true) }

/-- Fields of the `info_dict` read by
`YTAudioDownloader._handle_progress_event` (src/core/downloader.py lines
79-87). -/
structure HookInfo where
  track : Option String := none
  title : Option String := none
  alt_title : Option String := none
  id : Option String := none
  playlist_index : Option Nat := none
  playlist_count : Option Nat := none
  n_entries : Option Nat := none
deriving Repr, DecidableEq

/-- Fields of the raw progress dictionary `d` read by
`YTAudioDownloader._handle_progress_event` (src/core/downloader.py lines
74-123).  Byte counts are exact integers; `speed` is a rational. -/
structure HookData where
  status : Option String := none
  info : HookInfo := {}
  speed : Option ℚ := none
  eta : Option Nat := none
  total_bytes : Option Nat := none
  total_bytes_estimate : Option Nat := none
  downloaded_bytes : Option Nat := none
  playlist_count : Option Nat := none
  n_entries : Option Nat := none
deriving Repr, DecidableEq

/-- Count chain of `_handle_progress_event` (src/core/downloader.py lines
82-87) followed by the `int(playlist_count) if playlist_count else None`
guards at lines 106 and 120: `None` and `0` are both collapsed to `none`. -/
def hookItemCount (d : HookData) : Option Nat :=
  match pyOrNat (pyOrNat (pyOrNat d.info.playlist_count d.info.n_entries) d.playlist_count) d.n_entries with
  | some (n + 1) => some (n + 1)
  | _ => none

/-- Title chain of `_handle_progress_event` (src/core/downloader.py line 80). -/
def hookTitle (d : HookData) : String :=
  pyStrD (pyOrStr (pyOrStr (pyOrStr d.info.track d.info.title) d.info.alt_title) d.info.id)

/-- Effective total of the `downloading` branch of
`_handle_progress_event` (src/core/downloader.py line 92):
`total_bytes or total_bytes_estimate or 0`, with `0` falsy. -/
def hookTotal (d : HookData) : Nat :=
  match d.total_bytes with
  | some (n + 1) => n + 1
  | _ => (match d.total_bytes_estimate with | some m => m | none => 0)

/-- Effective downloaded bytes, `downloaded_bytes or 0`
(src/core/downloader.py line 93). -/
def hookDownloaded (d : HookData) : Nat :=
  match d.downloaded_bytes with
  | some m => m
  | none => 0

/-- Event built by the `downloading` branch of `_handle_progress_event`
(src/core/downloader.py lines 89-109); the percent guard at line 94 only
divides when the effective total is nonzero. -/
def downloadingHookEvent (d : HookData) : DownloadProgress :=
  { status := "downloading",
    percent := if hookTotal d = 0 then 0 else (hookDownloaded d : ℚ) / (hookTotal d : ℚ) * 100,
    downloaded := hookDownloaded d, total := hookTotal d,
    speed := (match d.speed with | some v => v | none => 0),
    eta := d.eta, message := "downloading", title := hookTitle d,
    item_index := d.info.playlist_index, item_count := hookItemCount d }

/-- Event built by the `finished` branch of `_handle_progress_event`
(src/core/downloader.py lines 111-123). -/
def finishedHookEvent (d : HookData) : DownloadProgress :=
  { status := "finished", message := "postprocessing", percent := 100,
    title := hookTitle d, item_index := d.info.playlist_index,
    item_count := hookItemCount d }

/-- Embedding of `YTAudioDownloader._handle_progress_event`
(src/core/downloader.py lines 74-123).  A set stop event makes the hook
raise `DownloadCancelled` (the `Except.error` case); otherwise the hook
emits the events of the matching status branch (log output dropped; the
`log_conversion` flag only affects logging). -/
def handleProgressEvent (stopSet : Bool) (d : HookData) :
    Except String (List DownloadProgress) :=
  if stopSet then .error "User requested stop."
  else if d.status = some "downloading" then .ok [downloadingHookEvent d]
  else if d.status = some "finished" then .ok [finishedHookEvent d]
  else .ok []

/-- Embedding of the dictionary mutations done by the hook wrapper built in
`YTAudioDownloader._make_progress_hook` (src/core/downloader.py lines
135-148), restricted to the keys `_handle_progress_event` reads
(`playlist_title` and `playlist_id` are written but never read there). -/
def applyHookDefaults (itemIndex itemCount : Option Nat) (initialTitle : Option String)
    (d : HookData) : HookData :=
  { d with info := { d.info with
      playlist_index :=
        if itemIndex.isSome ∧ d.info.playlist_index = none then itemIndex
        else d.info.playlist_index,
      playlist_count :=
        if itemCount.isSome ∧ d.info.playlist_count = none then itemCount
        else d.info.playlist_count,
      n_entries :=
        if itemCount.isSome ∧ d.info.n_entries = none then itemCount
        else d.info.n_entries,
      title :=
        if pyTruthyStr initialTitle ∧ ¬ pyTruthyStr d.info.title then initialTitle
        else d.info.title } }

/-- Sequential processing of the progress-hook invocations of one
`ydl.download` call.  `stopIn = some k` means the stop event becomes set
just before the k-th remaining hook fires (and stays set); `none` means it
is never set.  Returns the emitted events, the thread-local last recorded
progress (src/core/downloader.py lines 66-72, 108, 122), and whether
`DownloadCancelled` aborted the call. -/
def processHooks (itemIndex itemCount : Option Nat) (initialTitle : Option String) :
    Option Nat → Option DownloadProgress → List HookData →
    List DownloadProgress × Option DownloadProgress × Bool
  | _, last, [] => ([], last, false)
  | stopIn, last, d :: rest =>
    match handleProgressEvent (stopIn = some 0) (applyHookDefaults itemIndex itemCount initialTitle d) with
    | .error _ => ([], last, true)
    | .ok evs =>
      let last' := match evs with | [] => last | e :: _ => some e
      let next := match stopIn with
        | some (n + 1) => some n
        | some 0 => some 0
        | none => none
      let r := processHooks itemIndex itemCount initialTitle next last' rest
      (evs ++ r.1, r.2.1, r.2.2)

/-- Outcome of the underlying `ydl.download`/`process_ie_result` call once
every observed hook has run: normal return, a `DownloadError`, or any other
unexpected exception. -/
inductive DlOutcome where
  | ok : DlOutcome
  | dlError (msg : String) : DlOutcome
  | otherError (msg : String) : DlOutcome
deriving Repr, DecidableEq

/-- Stop-event state after `n` hook invocations, for the check at
src/core/downloader.py line 245. -/
def stopSetAfter (stopIn : Option Nat) (n : Nat) : Bool :=
  match stopIn with
  | some k => k ≤ n
  | none => false

/-- Event emitted by the `except DownloadCancelled` handler of
`_download_single` (src/core/downloader.py lines 268-278). -/
def stoppedEvent (initialTitle : Option String) (itemIndex itemCount : Option Nat) :
    DownloadProgress :=
  { status := "stopped", message := "User requested stop.",
    title := pyStrD initialTitle, item_index := itemIndex, item_count := itemCount }

/-- Event emitted by the `except DownloadError` / generic `except` handlers
of `_download_single` (src/core/downloader.py lines 279-300). -/
def errorEvent (msg : String) (initialTitle : Option String) (itemIndex itemCount : Option Nat) :
    DownloadProgress :=
  { status := "error", message := msg,
    title := pyStrD initialTitle, item_index := itemIndex, item_count := itemCount }

/-- Final success event of `_download_single` (src/core/downloader.py lines
248-264), built from the thread-local last recorded progress. -/
def finalEvent (last : Option DownloadProgress) (initialTitle : Option String)
    (itemIndex itemCount : Option Nat) : DownloadProgress :=
  let title := match last with
    | some lp => if lp.title.isEmpty then pyStrD initialTitle else lp.title
    | none => pyStrD initialTitle
  { status := "finished", message := "all_done", percent := 100, title := title,
    item_index := (match itemIndex with | some i => some i | none => last.bind fun lp => lp.item_index),
    item_count := (match itemCount with | some c => some c | none => last.bind fun lp => lp.item_count) }

/-- Embedding of `YTAudioDownloader._download_single` (src/core/downloader.py
lines 208-302).  `hooks` is the sequence of progress-hook invocations the
underlying call performs, `stopIn` places the stop-event set point, and
`outcome` is what the underlying call does after the last observed hook.
Returns the emitted events in order and the boolean return value. -/
def downloadSingle (itemIndex itemCount : Option Nat) (initialTitle : Option String)
    (emitFinal : Bool) (hooks : List HookData) (stopIn : Option Nat) (outcome : DlOutcome) :
    List DownloadProgress × Bool :=
  let r := processHooks itemIndex itemCount initialTitle stopIn none hooks
  if r.2.2 then
    (r.1 ++ [stoppedEvent initialTitle itemIndex itemCount], false)
  else
    match outcome with
    | .dlError msg => (r.1 ++ [errorEvent msg initialTitle itemIndex itemCount], false)
    | .otherError msg => (r.1 ++ [errorEvent msg initialTitle itemIndex itemCount], false)
    | .ok =>
      if stopSetAfter stopIn hooks.length then (r.1, false)
      else if emitFinal then (r.1 ++ [finalEvent r.2.1 initialTitle itemIndex itemCount], true)
      else (r.1, true)

/-- Route taken by `YTAudioDownloader.download` and its pool size. -/
inductive DownloadRoute where
  | playlistOnly (poolSize : Nat) : DownloadRoute
  | playlistThenSingle (poolSize : Nat) : DownloadRoute
  | singleOnly : DownloadRoute
deriving Repr, DecidableEq

/-- Fixed worker count of the internal playlist executor,
`max_workers = 3` at src/core/downloader.py line 345. -/
def playlistMaxWorkers : Nat := 3

/-- Embedding of the control flow of `YTAudioDownloader.download`
(src/core/downloader.py lines 481-493): playlist-looking URLs go through
`_download_playlist_concurrent` (whose executor is created with
`playlistMaxWorkers` threads, independent of any `DownloadManager` state),
falling back to `_download_single` exactly when that call returns `False`;
other URLs go straight to `_download_single`.  `handled` is the boolean
returned by `_download_playlist_concurrent`. -/
def downloadRoute (url : String) (handled : Bool) : DownloadRoute :=
  if isLikelyPlaylistUrl url then
    if handled then .playlistOnly playlistMaxWorkers
    else .playlistThenSingle playlistMaxWorkers
  else .singleOnly

/-- Resolution always yields at least one entry for the manager: the raw-URL
fallback of `_start_jobs` (src/core/queue.py lines 172-173) fills in when the
resolver returned nothing. -/
theorem startJobsEntries_ne_nil (fetch : Except String PyInfo) (url : String) :
    startJobsEntries fetch url ≠ [] := by
  unfold startJobsEntries
  by_cases h : (resolveEntries fetch url).isEmpty = true
  · simp [h]
  · rw [if_neg h]
    intro hnil
    rw [hnil] at h
    exact h rfl

/-- C1: the spec requires that no exception escapes `start_audio`/`start_video`
and in particular that emitting the queued placeholder and constructing the
per-item worker never raise.  The code violates this for every input: every
batch has at least one entry, `_emit_placeholder` passes the keywords
`job_id` and `thumbnail_url` to a `DownloadProgress` dataclass that declares
neither field, and `_run_worker` passes the keyword `job_id` to
`YTAudioDownloader.__init__`, which has no such parameter — both calls raise
`TypeError`, and the placeholder one escapes the public operation. -/
theorem c1_start_always_hits_type_error (fetch : Except String PyInfo) (url : String) :
    startJobsEntries fetch url ≠ [] ∧
    pyCallOk downloadProgressDataclassFields emitPlaceholderKwargs = false ∧
    pyCallOk ytAudioDownloaderInitParams runWorkerCtorArgs = false :=
  ⟨startJobsEntries_ne_nil fetch url, by decide, by decide⟩

/-- C4: the terminal batch event follows the three-way tie-break of
`_emit_terminal_event` — cancellation beats error beats success, with the
message, percent and item-count payloads the claim lists. -/
theorem c4_terminal_tie_break (s : MState) :
    (s.cancel_requested = true →
      emitTerminalEvent s = { status := "stopped", message := "cancelled", job_id := none }) ∧
    (s.cancel_requested = false → s.had_errors = true →
      emitTerminalEvent s = { status := "error", message := "one_or_more_failed",
                              item_count := s.active_total, job_id := none }) ∧
    (s.cancel_requested = false → s.had_errors = false →
      emitTerminalEvent s = { status := "finished", message := "all_done", percent := 100,
                              item_count := s.active_total, job_id := none }) := by
  refine ⟨fun h => ?_, fun h1 h2 => ?_, fun h1 h2 => ?_⟩
  · simp [emitTerminalEvent, h]
  · simp [emitTerminalEvent, h1, h2]
  · simp [emitTerminalEvent, h1, h2]

/-- Witness for C4 at a batch that was both cancelled and had prior errors:
it reports as cancelled. -/
theorem c4_terminal_tie_break_witness :
    emitTerminalEvent { cancel_requested := true, had_errors := true, active_total := some 3 }
      = { status := "stopped", message := "cancelled", job_id := none } :=
  (c4_terminal_tie_break { cancel_requested := true, had_errors := true, active_total := some 3 }).1 rfl

/-- C6 counterexample: with one active job and a requested size equal to the
current size, `set_max_workers` returns success (the equality short-circuit
at src/core/queue.py lines 149-150 runs before the active-job check), while
the claim requires failure whenever any job is active. -/
theorem c6_counterexample :
    hasActiveJobs { max_workers := 3, stop_events := [(0, false)], futures := [0] } = true ∧
    setMaxWorkers { max_workers := 3, stop_events := [(0, false)], futures := [0] } (some 3)
      = (true, { max_workers := 3, stop_events := [(0, false)], futures := [0] }) := by
  decide

/-- C6 as amended: the requested size is clamped to 1..8; while jobs are
active a change to a genuinely different size is refused with no state
change, but a request equal to the current size succeeds without change even
while active; while idle the resize succeeds, only the pool size changes,
and `has_active_jobs` stays false; an unconvertible argument yields failure
with no change. -/
theorem c6_amended (s : MState) (n : Int) :
    1 ≤ clampPool n ∧ clampPool n ≤ 8 ∧
    (clampPool n = s.max_workers → setMaxWorkers s (some n) = (true, s)) ∧
    (clampPool n ≠ s.max_workers → s.futures = [] →
      setMaxWorkers s (some n) = (true, { s with max_workers := clampPool n }) ∧
      hasActiveJobs { s with max_workers := clampPool n } = false) ∧
    (clampPool n ≠ s.max_workers → s.futures ≠ [] → setMaxWorkers s (some n) = (false, s)) ∧
    setMaxWorkers s none = (false, s) := by
  refine ⟨?_, ?_, fun h => ?_, fun h hf => ?_, fun h hf => ?_, rfl⟩
  · unfold clampPool; omega
  · unfold clampPool; omega
  · simp [setMaxWorkers, h]
  · constructor
    · simp [setMaxWorkers, h, hf]
    · simp [hasActiveJobs, hf]
  · have hne : s.futures.isEmpty = false := by
      cases hfs : s.futures with
      | nil => exact absurd hfs hf
      | cons a t => simp
    simp [setMaxWorkers, h, hne]

/-- Witness for C6 as amended: an idle manager resized from 3 to 5. -/
theorem c6_amended_witness :
    setMaxWorkers {} (some 5) = (true, { max_workers := 5 }) ∧
    hasActiveJobs { max_workers := 5 } = false :=
  (c6_amended {} 5).2.2.2.1 (by decide) rfl

/-- C8: `stop_all` is idempotent — a second call leaves the state of the
first call unchanged; the operation itself emits no progress event at all
(terminal delivery lives solely in `_on_future_done`), so no double delivery
can arise; after the call the cancel flag is set and every tracked
cancellation signal is set. -/
theorem c8_stop_all_idempotent (s : MState) :
    stopAll (stopAll s) = stopAll s ∧
    (stopAll s).cancel_requested = true ∧
    ∀ p ∈ (stopAll s).stop_events, p.2 = true := by
  have hmap : ∀ l : List (Nat × Bool),
      (l.map fun p => (p.1, true)).map (fun p => (p.1, true)) = l.map fun p => (p.1, true) := by
    intro l
    induction l with
    | nil => rfl
    | cons a t ih => simp [ih]
  refine ⟨?_, rfl, ?_⟩
  · simp [stopAll, hmap]
  · intro p hp
    simp only [stopAll, List.mem_map] at hp
    obtain ⟨q, _, hq⟩ := hp
    rw [← hq]

/-- C10: URLs that `is_likely_playlist_url` accepts are routed through the
internal concurrent playlist path of `YTAudioDownloader.download`, whose
executor size is the fixed constant 3 (src/core/downloader.py line 345,
independent of any `DownloadManager` pool size — `downloadRoute` takes no
manager state), and the single-item fallback runs exactly when the playlist
path reported the URL unhandled. -/
theorem c10_playlist_route (url : String) (handled : Bool) :
    isLikelyPlaylistUrl url = true →
    downloadRoute url handled
      = (if handled then DownloadRoute.playlistOnly playlistMaxWorkers
         else DownloadRoute.playlistThenSingle playlistMaxWorkers) ∧
    playlistMaxWorkers = 3 ∧
    (downloadRoute url handled = DownloadRoute.playlistThenSingle playlistMaxWorkers
      ↔ handled = false) := by
  intro h
  refine ⟨by simp [downloadRoute, h], rfl, ?_⟩
  cases handled <;> simp [downloadRoute, h]

/-- Witness for C10 at a concrete playlist URL with an unhandled playlist
pass. -/
theorem c10_playlist_route_witness :
    downloadRoute "https://www.youtube.com/playlist?list=PL1" false
      = (if false then DownloadRoute.playlistOnly playlistMaxWorkers
         else DownloadRoute.playlistThenSingle playlistMaxWorkers) ∧
    playlistMaxWorkers = 3 ∧
    (downloadRoute "https://www.youtube.com/playlist?list=PL1" false
      = DownloadRoute.playlistThenSingle playlistMaxWorkers ↔ false = false) :=
  c10_playlist_route "https://www.youtube.com/playlist?list=PL1" false (by decide)


/-- C9: every `downloading` event the hook handler emits carries
`percent = downloaded / total * 100` computed from its own byte fields when
the total is nonzero, and `percent = 0` when the total is unknown or zero —
the guarded branch of src/core/downloader.py line 94 never evaluates the
division with a zero denominator, and over the rationals the result is
always a finite number. -/
theorem c9_downloading_percent (stopSet : Bool) (d : HookData)
    (evs : List DownloadProgress) (e : DownloadProgress) :
    handleProgressEvent stopSet d = .ok evs → e ∈ evs → e.status = "downloading" →
    (e.total ≠ 0 → e.percent = (e.downloaded : ℚ) / (e.total : ℚ) * 100) ∧
    (e.total = 0 → e.percent = 0) := by
  intro hok hmem hstat
  unfold handleProgressEvent at hok
  split at hok
  · exact absurd hok (by simp)
  · split at hok
    · injection hok with h
      subst h
      rw [List.mem_singleton] at hmem
      subst hmem
      constructor
      · intro ht
        simp only [downloadingHookEvent] at ht ⊢
        rw [if_neg ht]
      · intro ht
        simp only [downloadingHookEvent] at ht ⊢
        rw [if_pos ht]
    · split at hok
      · injection hok with h
        subst h
        rw [List.mem_singleton] at hmem
        subst hmem
        simp [finishedHookEvent] at hstat
      · injection hok with h
        subst h
        simp at hmem

/-- Witness for C9 at a hook dictionary with no known total: the emitted
event has total 0 and percent 0. -/
theorem c9_downloading_percent_witness :
    ((downloadingHookEvent { status := some "downloading", downloaded_bytes := some 250 }).total ≠ 0 →
      (downloadingHookEvent { status := some "downloading", downloaded_bytes := some 250 }).percent
        = ((downloadingHookEvent { status := some "downloading", downloaded_bytes := some 250 }).downloaded : ℚ)
            / ((downloadingHookEvent { status := some "downloading", downloaded_bytes := some 250 }).total : ℚ) * 100) ∧
    ((downloadingHookEvent { status := some "downloading", downloaded_bytes := some 250 }).total = 0 →
      (downloadingHookEvent { status := some "downloading", downloaded_bytes := some 250 }).percent = 0) :=
  c9_downloading_percent false { status := some "downloading", downloaded_bytes := some 250 }
    [downloadingHookEvent { status := some "downloading", downloaded_bytes := some 250 }]
    (downloadingHookEvent { status := some "downloading", downloaded_bytes := some 250 })
    rfl (List.mem_singleton.mpr rfl) rfl

/-- Status is untouched by the hook-wrapper defaults of
`_make_progress_hook`. -/
theorem applyHookDefaults_status (ii ic : Option Nat) (it : Option String) (d : HookData) :
    (applyHookDefaults ii ic it d).status = d.status := rfl

/-- Hook handler on a set stop event: raises `DownloadCancelled`. -/
theorem handleProgressEvent_stop (d : HookData) :
    handleProgressEvent true d = .error "User requested stop." := rfl

/-- Hook handler on a `downloading` dictionary with the stop event clear. -/
theorem handleProgressEvent_dl (d : HookData) (h : d.status = some "downloading") :
    handleProgressEvent false d = .ok [downloadingHookEvent d] := by
  unfold handleProgressEvent
  rw [if_neg (by simp), if_pos h]

/-- Unfolding step for `processHooks` on a non-empty hook list. -/
theorem processHooks_cons (ii ic : Option Nat) (it : Option String) (stopIn : Option Nat)
    (last : Option DownloadProgress) (d : HookData) (rest : List HookData) :
    processHooks ii ic it stopIn last (d :: rest)
      = match handleProgressEvent (decide (stopIn = some 0)) (applyHookDefaults ii ic it d) with
        | .error _ => ([], last, true)
        | .ok evs =>
          let last' := match evs with | [] => last | e :: _ => some e
          let next := match stopIn with
            | some (n + 1) => some n
            | some 0 => some 0
            | none => none
          let r := processHooks ii ic it next last' rest
          (evs ++ r.1, r.2.1, r.2.2) := rfl

/-- Unfolding step for `processHooks` when the stop event is already set. -/
theorem processHooks_cons_stop (ii ic : Option Nat) (it : Option String)
    (last : Option DownloadProgress) (d : HookData) (rest : List HookData) :
    processHooks ii ic it (some 0) last (d :: rest) = ([], last, true) := rfl

/-- Unfolding step for `processHooks` on a `downloading` hook fired before
the stop point. -/
theorem processHooks_cons_dl (ii ic : Option Nat) (it : Option String)
    (last : Option DownloadProgress) (d : HookData) (rest : List HookData) (k' : Nat)
    (h : d.status = some "downloading") :
    processHooks ii ic it (some (k' + 1)) last (d :: rest)
      = (downloadingHookEvent (applyHookDefaults ii ic it d) ::
           (processHooks ii ic it (some k')
             (some (downloadingHookEvent (applyHookDefaults ii ic it d))) rest).1,
         (processHooks ii ic it (some k')
           (some (downloadingHookEvent (applyHookDefaults ii ic it d))) rest).2.1,
         (processHooks ii ic it (some k')
           (some (downloadingHookEvent (applyHookDefaults ii ic it d))) rest).2.2) := by
  have hs : (applyHookDefaults ii ic it d).status = some "downloading" := h
  rw [processHooks_cons]
  rw [show (decide ((some (k' + 1) : Option Nat) = some 0)) = false from rfl]
  rw [handleProgressEvent_dl _ hs]
  rfl

/-- Processing hooks with the stop event set from hook `k` on, after `k`
hooks that all report `downloading`, aborts with `DownloadCancelled` having
emitted only `downloading` events. -/
theorem processHooks_cancelled (hooks : List HookData) :
    ∀ (k : Nat) (ii ic : Option Nat) (it : Option String) (last : Option DownloadProgress),
    (∀ d ∈ hooks.take k, d.status = some "downloading") → k < hooks.length →
    (processHooks ii ic it (some k) last hooks).2.2 = true ∧
    ∀ e ∈ (processHooks ii ic it (some k) last hooks).1, e.status = "downloading" := by
  induction hooks with
  | nil =>
    intro k ii ic it last _ hk
    exact absurd hk (by simp)
  | cons d rest ih =>
    intro k ii ic it last hall hk
    cases k with
    | zero =>
      rw [processHooks_cons_stop]
      exact ⟨rfl, by intro e he; simp at he⟩
    | succ k' =>
      have hd : d.status = some "downloading" := hall d (by simp)
      have hall' : ∀ x ∈ rest.take k', x.status = some "downloading" := by
        intro x hx
        exact hall x (by simp [hx])
      have hk' : k' < rest.length := by
        simp at hk
        omega
      rw [processHooks_cons_dl _ _ _ _ _ _ _ hd]
      have hih := ih k' ii ic it
        (some (downloadingHookEvent (applyHookDefaults ii ic it d))) hall' hk'
      refine ⟨hih.1, ?_⟩
      intro e he
      rw [List.mem_cons] at he
      rcases he with he | he
      · rw [he]
        rfl
      · exact hih.2 e he

/-- C7: when the cancellation signal is set while the item is queued or
still downloading (hooks 0..k-1 all report `downloading` and hook `k`
observes the set signal), `_download_single` aborts the in-flight call via
`DownloadCancelled` and emits exactly one `stopped` event, which is the last
event — no `error` and no `finished` event is ever emitted for the item,
whatever the underlying call would otherwise have done. -/
theorem c7_cancel_single_stopped (ii ic : Option Nat) (it : Option String) (ef : Bool)
    (hooks : List HookData) (k : Nat) (outcome : DlOutcome) :
    (∀ d ∈ hooks.take k, d.status = some "downloading") → k < hooks.length →
    (downloadSingle ii ic it ef hooks (some k) outcome).1.countP
        (fun e => e.status == "stopped") = 1 ∧
    (downloadSingle ii ic it ef hooks (some k) outcome).1.countP
        (fun e => e.status == "error") = 0 ∧
    (downloadSingle ii ic it ef hooks (some k) outcome).1.countP
        (fun e => e.status == "finished") = 0 ∧
    (downloadSingle ii ic it ef hooks (some k) outcome).1.getLast?
        = some (stoppedEvent it ii ic) ∧
    (downloadSingle ii ic it ef hooks (some k) outcome).2 = false := by
  intro hall hk
  have hp := processHooks_cancelled hooks k ii ic it none hall hk
  have hres : downloadSingle ii ic it ef hooks (some k) outcome
      = ((processHooks ii ic it (some k) none hooks).1 ++ [stoppedEvent it ii ic], false) := by
    simp only [downloadSingle, hp.1, if_true]
  rw [hres]
  have hzero : ∀ (st : String), st ≠ "downloading" →
      (processHooks ii ic it (some k) none hooks).1.countP (fun e => e.status == st) = 0 := by
    intro st hst
    rw [List.countP_eq_zero]
    intro e he
    have := hp.2 e he
    simp [this]
    intro hc
    exact hst hc.symm
  refine ⟨?_, ?_, ?_, ?_, rfl⟩
  · rw [List.countP_append, hzero "stopped" (by decide)]
    simp [stoppedEvent, List.countP_cons]
  · rw [List.countP_append, hzero "error" (by decide)]
    simp [stoppedEvent, List.countP_cons]
  · rw [List.countP_append, hzero "finished" (by decide)]
    simp [stoppedEvent, List.countP_cons]
  · exact List.getLast?_concat _

/-- Witness for C7: a single `downloading` hook with the signal set from the
start. -/
theorem c7_cancel_single_stopped_witness :
    (downloadSingle none none none true [{ status := some "downloading" }] (some 0) .ok).1.countP
        (fun e => e.status == "stopped") = 1 ∧
    (downloadSingle none none none true [{ status := some "downloading" }] (some 0) .ok).1.countP
        (fun e => e.status == "error") = 0 ∧
    (downloadSingle none none none true [{ status := some "downloading" }] (some 0) .ok).1.countP
        (fun e => e.status == "finished") = 0 ∧
    (downloadSingle none none none true [{ status := some "downloading" }] (some 0) .ok).1.getLast?
        = some (stoppedEvent none none none) ∧
    (downloadSingle none none none true [{ status := some "downloading" }] (some 0) .ok).2 = false :=
  c7_cancel_single_stopped none none none true [{ status := some "downloading" }] 0 .ok
    (by simp) (by simp)

/-- Unfolding step for `playlistLoop` on a non-empty entry list. -/
theorem playlistLoop_cons (T i : Nat) (e : PyEntry) (rest : List PyEntry) :
    playlistLoop T i (e :: rest)
      = match normaliseEntryUrl e with
        | some u =>
          { url := u, title := pyStrD e.title, index := some i, total := some T,
            thumbnail_url := extractThumbnail e.thumbnail e.thumbnails }
            :: playlistLoop T (i + 1) rest
        | none => playlistLoop T (i + 1) rest := rfl

/-- Positions, 1-based within the non-null entries and counted from `i`, of
the entries that yield a resolvable address.  Stated from the claim wording
to compare against the loop of `resolve_entries`. -/
def resolvedPositions : Nat → List PyEntry → List Nat
  | _, [] => []
  | i, e :: rest =>
    if (normaliseEntryUrl e).isSome then i :: resolvedPositions (i + 1) rest
    else resolvedPositions (i + 1) rest

/-- Every work item the playlist loop emits carries the shared total. -/
theorem playlistLoop_total (T : Nat) :
    ∀ (l : List PyEntry) (i : Nat) (q : QueueEntry), q ∈ playlistLoop T i l → q.total = some T := by
  intro l
  induction l with
  | nil =>
    intro i q hq
    simp [playlistLoop] at hq
  | cons e rest ih =>
    intro i q hq
    rw [playlistLoop_cons] at hq
    split at hq
    · rw [List.mem_cons] at hq
      rcases hq with hq | hq
      · rw [hq]
      · exact ih (i + 1) q hq
    · exact ih (i + 1) q hq

/-- The indices the playlist loop assigns are exactly the positions of the
resolvable entries: unresolvable entries leave gaps and nothing is
renumbered. -/
theorem playlistLoop_indices (T : Nat) :
    ∀ (l : List PyEntry) (i : Nat),
    (playlistLoop T i l).map (fun q => q.index) = (resolvedPositions i l).map some := by
  intro l
  induction l with
  | nil => intro i; rfl
  | cons e rest ih =>
    intro i
    rw [playlistLoop_cons]
    cases hn : normaliseEntryUrl e with
    | some u =>
      rw [resolvedPositions, hn]
      simp [ih (i + 1)]
    | none =>
      rw [resolvedPositions, hn]
      simp [ih (i + 1)]

/-- The playlist loop emits exactly one work item per resolvable entry. -/
theorem playlistLoop_length (T : Nat) :
    ∀ (l : List PyEntry) (i : Nat),
    (playlistLoop T i l).length = (l.filter fun e => (normaliseEntryUrl e).isSome).length := by
  intro l
  induction l with
  | nil => intro i; rfl
  | cons e rest ih =>
    intro i
    rw [playlistLoop_cons]
    cases hn : normaliseEntryUrl e with
    | some u => simp [List.filter_cons, hn, ih (i + 1)]
    | none => simp [List.filter_cons, hn, ih (i + 1)]

/-- C2 counterexample: a playlist with one resolvable entry and one non-null
entry with no resolvable address.  The dropped entry produces no WorkItem,
yet the surviving item reports `total = 2`: the code computes the shared
total at src/core/queue.py line 86, before the unresolvable entry is
dropped, so dropped entries do count toward the total, contradicting the
claim. -/
theorem c2_counterexample :
    resolveFromInfo
      { type_ := some "playlist",
        entries := [some { webpage_url := some "http://a" }, some { title := some "x" }] } "u"
      = [{ url := "http://a", title := "", index := some 1, total := some 2,
           thumbnail_url := none }] ∧
    (resolveFromInfo
      { type_ := some "playlist",
        entries := [some { webpage_url := some "http://a" }, some { title := some "x" }] }
      "u").length = 1 := by
  decide

/-- C2 as amended: an entry with no resolvable address produces no WorkItem
and the surviving items keep their original 1-based positions among the
non-null entries (gaps not padded, items not renumbered), but the dropped
entry still counts toward the shared total, which is the number of non-null
entries rather than the number of emitted items. -/
theorem c2_amended (info : PyInfo) (url : String) :
    (info.type_ = some "playlist" ∨ info.type_ = some "multi_video") →
    (resolveFromInfo info url).length
        = ((info.entries.filterMap id).filter fun e => (normaliseEntryUrl e).isSome).length ∧
    (∀ q ∈ resolveFromInfo info url, q.total = some (info.entries.filterMap id).length) ∧
    (resolveFromInfo info url).map (fun q => q.index)
        = (resolvedPositions 1 (info.entries.filterMap id)).map some := by
  intro h
  have hout : resolveFromInfo info url
      = playlistLoop (info.entries.filterMap id).length 1 (info.entries.filterMap id) := by
    simp only [resolveFromInfo]
    rw [if_pos h]
    by_cases he : (info.entries.filterMap id).isEmpty = true
    · rw [if_pos he]
      cases hfe : info.entries.filterMap id with
      | nil => rfl
      | cons a t => rw [hfe] at he; simp at he
    · rw [if_neg he]
  rw [hout]
  exact ⟨playlistLoop_length _ _ 1, fun q hq => playlistLoop_total _ _ 1 q hq,
    playlistLoop_indices _ _ 1⟩

/-- Witness for C2 as amended at a two-entry playlist with a dropped middle
entry: the surviving second entry keeps position 2. -/
theorem c2_amended_witness :
    (resolveFromInfo
        { type_ := some "playlist",
          entries := [some { title := some "gone" }, some { url := some "http://b" }] } "u").length
      = (((PyInfo.entries
            { type_ := some "playlist",
              entries := [some { title := some "gone" }, some { url := some "http://b" }] }).filterMap
              id).filter fun e => (normaliseEntryUrl e).isSome).length ∧
    (∀ q ∈ resolveFromInfo
        { type_ := some "playlist",
          entries := [some { title := some "gone" }, some { url := some "http://b" }] } "u",
      q.total = some ((PyInfo.entries
            { type_ := some "playlist",
              entries := [some { title := some "gone" }, some { url := some "http://b" }] }).filterMap
              id).length) ∧
    (resolveFromInfo
        { type_ := some "playlist",
          entries := [some { title := some "gone" }, some { url := some "http://b" }] } "u").map
        (fun q => q.index)
      = (resolvedPositions 1 ((PyInfo.entries
            { type_ := some "playlist",
              entries := [some { title := some "gone" }, some { url := some "http://b" }] }).filterMap
              id)).map some :=
  c2_amended
    { type_ := some "playlist",
      entries := [some { title := some "gone" }, some { url := some "http://b" }] } "u"
    (Or.inl rfl)

/-- C3 counterexample: for a non-collection URL whose metadata carries a
canonical `webpage_url` different from the raw input, the single returned
WorkItem targets the canonical address, not the raw input URL the claim
names. -/
theorem c3_counterexample :
    resolveEntries
        (Except.ok { webpage_url := some "https://www.youtube.com/watch?v=abc" })
        "https://youtu.be/abc"
      = [{ url := "https://www.youtube.com/watch?v=abc", title := "", index := some 1,
           total := some 1, thumbnail_url := none }] ∧
    "https://www.youtube.com/watch?v=abc" ≠ "https://youtu.be/abc" := by
  decide

/-- C3 as amended: when the metadata fetch raises, the resolver returns
nothing and `_start_jobs` substitutes a single WorkItem with index 1, total
1 and the raw input URL, without flagging a batch error; when the URL is
not a collection, a single WorkItem with index 1 and total 1 is returned
whose target is the metadata `webpage_url` or `original_url`, falling back
to the raw input URL only when neither is a usable string.  Resolution is a
total function of the fetch outcome, so it never raises. -/
theorem c3_amended (msg url : String) (info : PyInfo) (s : MState) :
    resolveEntries (.error msg) url = [] ∧
    startJobsEntries (.error msg) url
      = [{ url := url, title := "", index := some 1, total := some 1, thumbnail_url := none }] ∧
    (startJobs (.error msg) url s).1.had_errors = false ∧
    (¬ (info.type_ = some "playlist" ∨ info.type_ = some "multi_video") →
      (resolveFromInfo info url).map (fun q => (q.index, q.total)) = [(some 1, some 1)] ∧
      (pyTruthyStr info.webpage_url = false → pyTruthyStr info.original_url = false →
        (resolveFromInfo info url).map (fun q => q.url) = [url])) := by
  refine ⟨rfl, rfl, rfl, fun h => ?_⟩
  constructor
  · simp [resolveFromInfo, h]
  · intro h1 h2
    simp [resolveFromInfo, h, pyOrStr, h1, h2, pyStrD]

/-- Witness for C3 as amended at a fetch failure and at a metadata
dictionary with no usable address fields. -/
theorem c3_amended_witness :
    resolveEntries (.error "transport") "https://youtu.be/x" = [] ∧
    ((resolveFromInfo ({} : PyInfo) "https://youtu.be/x").map fun q => q.url)
      = ["https://youtu.be/x"] := by
  have h := c3_amended "transport" "https://youtu.be/x" {} {}
  exact ⟨h.1, (h.2.2.2 (by decide)).2 rfl rfl⟩

/-- Completion callbacks preserve the cancel flag, the error flag and the
recorded batch total, so the terminal event computed after the last removal
equals the one computed from the pre-removal state. -/
theorem emitTerminalEvent_filter (s : MState) (j : Nat) :
    emitTerminalEvent
        { s with futures := s.futures.filter fun x => x ≠ j,
                 stop_events := s.stop_events.filter fun p => p.1 ≠ j }
      = emitTerminalEvent s := rfl

/-- Unfolding step for `runCompletions` on a non-empty completion list. -/
theorem runCompletions_cons (s : MState) (j : Nat) (rest : List Nat) :
    runCompletions s (j :: rest)
      = (onFutureDone s j).2 ++ runCompletions (onFutureDone s j).1 rest := rfl

/-- Running the completion callbacks of all tracked jobs, in any order,
emits exactly the terminal batch event of the starting state. -/
theorem runCompletions_perm :
    ∀ (js : List Nat) (s : MState), js.Perm s.futures → s.futures.Nodup → js ≠ [] →
    runCompletions s js = [emitTerminalEvent s] := by
  intro js
  induction js with
  | nil =>
    intro s _ _ hne
    exact absurd rfl hne
  | cons j rest ih =>
    intro s hperm hnd _
    have hjrest_nd : (j :: rest).Nodup := (hperm.nodup_iff).mpr hnd
    rw [List.nodup_cons] at hjrest_nd
    have hj_notin : j ∉ rest := hjrest_nd.1
    have hfilter : rest.Perm (s.futures.filter fun x => x ≠ j) := by
      have h1 := hperm.filter (fun x => x ≠ j)
      have h2 : (j :: rest).filter (fun x => x ≠ j) = rest := by
        rw [List.filter_cons]
        rw [if_neg (by simp)]
        apply List.filter_eq_self.mpr
        intro a ha
        simp only [decide_eq_true_eq, ne_eq]
        intro he
        exact hj_notin (he ▸ ha)
      rw [h2] at h1
      exact h1
    rw [runCompletions_cons]
    cases rest with
    | nil =>
      have hfe : (s.futures.filter fun x => x ≠ j) = [] := hfilter.symm.eq_nil
      have h2 : (onFutureDone s j).2
          = [emitTerminalEvent
              { s with futures := s.futures.filter fun x => x ≠ j,
                       stop_events := s.stop_events.filter fun p => p.1 ≠ j }] := by
        simp only [onFutureDone, hfe, List.isEmpty_nil, if_true]
      rw [h2]
      rfl
    | cons r rs =>
      have hne2 : (s.futures.filter fun x => x ≠ j).isEmpty = false := by
        cases hc : s.futures.filter fun x => x ≠ j with
        | nil =>
          rw [hc] at hfilter
          exact absurd hfilter.length_eq (by simp)
        | cons a t => rfl
      have hstep : onFutureDone s j
          = ({ s with futures := s.futures.filter fun x => x ≠ j,
                      stop_events := s.stop_events.filter fun p => p.1 ≠ j }, []) := by
        simp only [onFutureDone, hne2, Bool.false_eq_true, if_false]
      have hrun := ih
        { s with futures := s.futures.filter fun x => x ≠ j,
                 stop_events := s.stop_events.filter fun p => p.1 ≠ j }
        hfilter (hnd.filter _) (by simp)
      rw [hstep]
      simp only [List.nil_append]
      rw [hrun]
      rfl

/-- Every placeholder the submission loop emits is a queued event addressed
to one job. -/
theorem placeholdersFrom_fields :
    ∀ (es : List QueueEntry) (i : Nat) (e : DownloadProgress), e ∈ placeholdersFrom i es →
    e.status = "queued" ∧ e.job_id ≠ none := by
  intro es
  induction es with
  | nil =>
    intro i e he
    simp [placeholdersFrom] at he
  | cons q rest ih =>
    intro i e he
    rw [placeholdersFrom, List.mem_cons] at he
    rcases he with he | he
    · rw [he]
      exact ⟨rfl, by simp [emitPlaceholder]⟩
    · exact ih (i + 1) e he

/-- No placeholder is a batch-level event. -/
theorem placeholdersFrom_countP (es : List QueueEntry) :
    ∀ i, (placeholdersFrom i es).countP (fun e => e.job_id.isNone) = 0 := by
  induction es with
  | nil => intro i; rfl
  | cons q rest ih =>
    intro i
    rw [placeholdersFrom]
    simp [List.countP_cons, emitPlaceholder, ih (i + 1)]

/-- C5 counterexample: a playlist resolving to one WorkItem (its second,
non-null entry has no resolvable address) still finishes with a terminal
event carrying `item_count = 2`, not the number of resolved items `N = 1`,
because `_start_jobs` records `entries[0].total` as the batch total. -/
theorem c5_counterexample :
    (resolveEntries
        (Except.ok
          { type_ := some "playlist",
            entries := [some { webpage_url := some "http://a" }, some { title := some "x" }] })
        "u").length = 1 ∧
    runCompletions
        (startJobs
          (Except.ok
            { type_ := some "playlist",
              entries := [some { webpage_url := some "http://a" }, some { title := some "x" }] })
          "u" {}).1
        [0]
      = [{ status := "finished", message := "all_done", percent := 100,
           item_count := some 2, job_id := none }] := by
  decide

/-- C5 as amended: starting a batch on an idle manager and then firing the
completion callback of every submitted job, in any order, emits exactly one
batch-level event; it is the last event of the batch, and for a batch with
no cancellation and no error it is `finished`/`all_done` carrying the batch
total recorded at resolution (the playlist entry count, which equals the
number of resolved items except when unresolvable entries were dropped).
The final conjunct is the transition characterisation: one completion
callback emits a terminal event exactly when the removal it performs leaves
the active set empty. -/
theorem c5_amended (fetch : Except String PyInfo) (url : String) (s0 : MState) (js : List Nat) :
    s0.futures = [] →
    js.Perm (startJobs fetch url s0).1.futures →
    runCompletions (startJobs fetch url s0).1 js
      = [{ status := "finished", message := "all_done", percent := 100,
           item_count := some (batchTotalItems (startJobsEntries fetch url)), job_id := none }] ∧
    (∀ e ∈ (startJobs fetch url s0).2, e.status = "queued" ∧ e.job_id ≠ none) ∧
    ((startJobs fetch url s0).2 ++ runCompletions (startJobs fetch url s0).1 js).countP
        (fun e => e.job_id.isNone) = 1 ∧
    ((startJobs fetch url s0).2 ++ runCompletions (startJobs fetch url s0).1 js).getLast?
      = some { status := "finished", message := "all_done", percent := 100,
               item_count := some (batchTotalItems (startJobsEntries fetch url)), job_id := none } ∧
    (∀ (s : MState) (j : Nat),
      (onFutureDone s j).2 ≠ [] ↔ (s.futures.filter fun x => x ≠ j) = []) := by
  intro h0 hperm
  have hfut : (startJobs fetch url s0).1.futures
      = List.range (startJobsEntries fetch url).length := by
    show s0.futures ++ List.range _ = _
    rw [h0]
    rfl
  have hn1 : 1 ≤ (startJobsEntries fetch url).length := by
    have hne := startJobsEntries_ne_nil fetch url
    cases hc : startJobsEntries fetch url with
    | nil => exact absurd hc hne
    | cons a t => simp
  have hjs_ne : js ≠ [] := by
    intro h
    have hlen := hperm.length_eq
    rw [h, hfut] at hlen
    simp at hlen
    omega
  have hnd : (startJobs fetch url s0).1.futures.Nodup := by
    rw [hfut]
    exact List.nodup_range _
  have hrun0 := runCompletions_perm js (startJobs fetch url s0).1 hperm hnd hjs_ne
  have hterm : emitTerminalEvent (startJobs fetch url s0).1
      = { status := "finished", message := "all_done", percent := 100,
          item_count := some (batchTotalItems (startJobsEntries fetch url)), job_id := none } := rfl
  have hrun : runCompletions (startJobs fetch url s0).1 js
      = [{ status := "finished", message := "all_done", percent := 100,
           item_count := some (batchTotalItems (startJobsEntries fetch url)), job_id := none }] := by
    rw [hrun0, hterm]
  refine ⟨hrun, ?_, ?_, ?_, ?_⟩
  · intro e he
    exact placeholdersFrom_fields (startJobsEntries fetch url) 0 e he
  · rw [List.countP_append, hrun]
    have hz : ((startJobs fetch url s0).2).countP (fun e => e.job_id.isNone) = 0 :=
      placeholdersFrom_countP (startJobsEntries fetch url) 0
    rw [hz]
    rfl
  · rw [hrun]
    exact List.getLast?_concat _
  · intro s j
    cases hc : s.futures.filter fun x => x ≠ j with
    | nil =>
      simp only [onFutureDone, hc, List.isEmpty_nil, if_true]
      simp
    | cons a t =>
      simp only [onFutureDone, hc, List.isEmpty_cons, Bool.false_eq_true, if_false]
      simp

/-- Witness for C5 as amended: a single-item batch on an idle manager,
completed in the only possible order. -/
theorem c5_amended_witness :
    runCompletions (startJobs (Except.ok {}) "https://youtu.be/x" {}).1 [0]
      = [{ status := "finished", message := "all_done", percent := 100,
           item_count := some (batchTotalItems (startJobsEntries (Except.ok {}) "https://youtu.be/x")),
           job_id := none }] :=
  (c5_amended (Except.ok {}) "https://youtu.be/x" {} [0] rfl (List.Perm.refl _)).1
